import Mathlib

/-!
# ConfigFlow — verification of the impact-correlation and auto-tuning pipeline

Shallow embedding of the core of the `configflow` repository:

* `src/autotuning/AutoTuningEngine.ts` — the safety-gated actuator
  (eligibility filter, capacity gate, backup/apply/validate/rollback state
  machine, aggregate stats);
* `src/optimization/OptimizationEngine.ts` — suggestion post-processing
  (deduplication and priority sorting);
* `src/analysis/ImpactAnalyzer.ts` — impact scoring, stability and
  confidence computation.

Numbers are embedded as exact rationals (`ℚ`) where the source performs
field arithmetic and comparisons, and as reals (`ℝ`) where the source calls
`Math.sqrt`.  Fallible steps (file reads, the post-change measurement) are
`Option`-valued.  The file system is a map from paths to optional contents;
wall-clock timestamps and the on-disk persistence of backup blobs are not
modelled (the spec treats persistence as an external collaborator).
-/

namespace ConfigFlow

/-! ## Auto-Tuning Engine: data model (`src/types/autotuning.ts`) -/

/-- Session lifecycle states (`TuningStatus` in `src/types/autotuning.ts`). -/
inductive TuningStatus where
  | pending
  | testing
  | successful
  | rolledBack
  | failed
  | awaitingApproval
deriving DecidableEq

/-- The averaged metrics record produced by `calculateMetricsAverage`
(`{ avgCpu, avgMemory, stability }`). -/
structure MetricsAvg where
  avgCpu : ℚ
  avgMemory : ℚ
  stability : ℚ
deriving DecidableEq

/-- The fields of `OptimizationSuggestion` that the Auto-Tuning Engine reads.
`expectedImpact` is consumed only by log statements. -/
structure Suggestion where
  id : String
  configFile : String
  parameter : String
  currentValue : String
  suggestedValue : String
  expectedImpact : String
  confidence : ℚ
  riskLevel : String
deriving DecidableEq

/-- `AutoTuningSession` (timestamps dropped: `startTime`/`endTime` feed no
decision in the engine). -/
structure Session where
  id : String
  suggestionId : String
  configFile : String
  parameter : String
  originalValue : String
  newValue : String
  status : TuningStatus
  preChangeMetrics : MetricsAvg
  postChangeMetrics : Option MetricsAvg
  improvementMeasured : Option ℚ
  rollbackReason : Option String
deriving DecidableEq

/-- `ConfigBackup` (timestamp dropped; it feeds only `cleanupOldBackups`). -/
structure ConfigBackup where
  id : String
  configFile : String
  originalContent : String
  reason : String
deriving DecidableEq

/-- The `AutoTuningConfig` knobs consulted by the modelled operations. -/
structure AutoTuningConfig where
  enabled : Bool
  maxConcurrentChanges : ℕ
  riskThreshold : String
deriving DecidableEq

/-- `ValidationResult` (`src/types/autotuning.ts`). -/
structure ValidationResult where
  isValid : Bool
  confidence : ℚ
  improvementPercent : ℚ
  issues : List String
  recommendation : String
deriving DecidableEq

/-- The in-memory state of one `AutoTuningEngine` instance, together with the
file system it mutates.  `fsContents p = none` models a missing file (reads
throw); `fsWritable` models the `W_OK` access check.  The `Map` of active
sessions is modelled as a list with unique ids, in insertion order. -/
structure EngineState where
  config : AutoTuningConfig
  fsContents : String → Option String
  fsWritable : String → Bool
  activeSessions : List Session
  backups : List ConfigBackup
  completedSessions : List Session

/-! ## Auto-Tuning Engine: operations (`src/autotuning/AutoTuningEngine.ts`) -/

/-- `riskOrder[riskLevel] || 3`: the lookup in
`{ low: 1, medium: 2, high: 3 }`, defaulting unknown strings to 3. -/
def riskRank (riskLevel : String) : ℕ :=
  if riskLevel = "low" then 1
  else if riskLevel = "medium" then 2
  else if riskLevel = "high" then 3
  else 3

/-- `isWithinRiskThreshold`: suggestion risk rank at most the configured
threshold's rank. -/
def isWithinRiskThreshold (config : AutoTuningConfig) (riskLevel : String) : Bool :=
  decide (riskRank riskLevel ≤ riskRank config.riskThreshold)

/-- `isFileModifiable`: `fs.existsSync` and a successful `W_OK` access check. -/
def isFileModifiable (s : EngineState) (filePath : String) : Bool :=
  (s.fsContents filePath).isSome && s.fsWritable filePath

/-- `filterEligibleSuggestions`: keep a suggestion iff its risk is within the
threshold, its confidence is at least 0.7, and its target file is modifiable.
Note: the file-modifiability check is applied to every suggestion — the
source has no carve-out for the virtual sentinel paths here. -/
def filterEligibleSuggestions (s : EngineState) (suggestions : List Suggestion) :
    List Suggestion :=
  suggestions.filter (fun g =>
    isWithinRiskThreshold s.config g.riskLevel
      && !(decide (g.confidence < mkRat 7 10))
      && isFileModifiable s g.configFile)

/-- The session record built by `applySuggestion` (status starts at `TESTING`,
`preChangeMetrics` is the average of the last five snapshots). -/
def mkSession (g : Suggestion) (sessionId : String) (pre : MetricsAvg) : Session :=
  { id := sessionId
    suggestionId := g.id
    configFile := g.configFile
    parameter := g.parameter
    originalValue := g.currentValue
    newValue := g.suggestedValue
    status := TuningStatus.testing
    preChangeMetrics := pre
    postChangeMetrics := none
    improvementMeasured := none
    rollbackReason := none }

/-- `applyConfigurationChange`: virtual sentinel targets are logged and left
untouched; for real files the JSON key-path rewrite is abstracted as an
oracle `applied` giving the bytes written (`none` models the non-`.json`,
`parameter = "unknown"`, and caught-parse-error paths, which leave the file
unchanged).  The claims below do not depend on the rewritten content. -/
def applyConfigurationChange (fs : String → Option String) (g : Suggestion)
    (applied : Option String) : String → Option String :=
  if g.configFile = "system" ∨ g.configFile = "algorithmic_optimization" then fs
  else
    match applied with
    | none => fs
    | some c => fun p => if p = g.configFile then some c else fs p

/-- `applySuggestion`: `createBackup` reads the target file first — if the
read fails (missing file) the error is caught and no session is registered.
Otherwise the backup (holding the pre-apply bytes) is recorded, the session
enters the active map in `TESTING`, and the change is applied. -/
def applySuggestion (s : EngineState) (g : Suggestion) (sessionId backupId : String)
    (pre : MetricsAvg) (applied : Option String) : EngineState :=
  match s.fsContents g.configFile with
  | none => s
  | some orig =>
      { s with
        backups := s.backups ++
          [{ id := backupId, configFile := g.configFile,
             originalContent := orig, reason := "Auto-tuning: " ++ g.id }]
        activeSessions := s.activeSessions ++ [mkSession g sessionId pre]
        fsContents := applyConfigurationChange s.fsContents g applied }

/-- `Array.prototype.slice(0, endIdx)`: a negative `endIdx` counts from the
end of the array. -/
def jsSliceTake {α : Type} (l : List α) (endIdx : ℤ) : List α :=
  if 0 ≤ endIdx then l.take endIdx.toNat
  else l.take (l.length - (-endIdx).toNat)

/-- `processSuggestions`: no-op when disabled; filter eligibility; admit the
first `maxConcurrentChanges − |active|` eligible suggestions in order; apply
each.  The oracle list supplies, per admitted suggestion, the generated
session id, backup id, and written bytes; `pre` is the metrics average. -/
def processSuggestions (s : EngineState) (suggestions : List Suggestion)
    (pre : MetricsAvg) (oracle : List (String × String × Option String)) :
    EngineState :=
  if s.config.enabled then
    let elig := filterEligibleSuggestions s suggestions
    if elig.isEmpty then s
    else
      let slots : ℤ := (s.config.maxConcurrentChanges : ℤ) - s.activeSessions.length
      let toProcess := jsSliceTake elig slots
      (toProcess.zip oracle).foldl
        (fun st p => applySuggestion st p.1 p.2.1 p.2.2.1 pre p.2.2.2) s
  else s

/-- `validatePerformanceChange`: weighted improvement, validity gate,
confidence, issue list (in source order), and the keep/rollback
recommendation. -/
def validatePerformanceChange (beforeMetrics afterMetrics : MetricsAvg) :
    ValidationResult :=
  let cpuImprovement := beforeMetrics.avgCpu - afterMetrics.avgCpu
  let memoryImprovement := beforeMetrics.avgMemory - afterMetrics.avgMemory
  let stabilityImprovement := afterMetrics.stability - beforeMetrics.stability
  let overallImprovement :=
    cpuImprovement * mkRat 4 10 + memoryImprovement * mkRat 4 10
      + stabilityImprovement * 20
  let isValid : Bool :=
    decide (0 < overallImprovement) && decide (afterMetrics.avgCpu < 90)
      && decide (afterMetrics.avgMemory < 95)
  let issues : List String :=
    (if beforeMetrics.avgCpu * mkRat 11 10 < afterMetrics.avgCpu then
        ["CPU usage increased significantly"] else [])
      ++ (if beforeMetrics.avgMemory * mkRat 11 10 < afterMetrics.avgMemory then
        ["Memory usage increased significantly"] else [])
      ++ (if afterMetrics.stability < beforeMetrics.stability * mkRat 9 10 then
        ["System stability decreased"] else [])
  { isValid := isValid
    confidence := min 1 (|overallImprovement| / 10)
    improvementPercent := overallImprovement
    issues := issues
    recommendation :=
      if isValid && decide (2 < overallImprovement) then "keep" else "rollback" }

/-- The in-place mutation `rollbackChange` performs on the session object. -/
def rollbackSession (reason : String) (t : Session) : Session :=
  { t with status := TuningStatus.rolledBack, rollbackReason := some reason }

/-- `rollbackChange`: mark the active session (if any) `ROLLED_BACK` with the
given reason, and — when the backup is found and its target is not a virtual
sentinel — write the backed-up bytes verbatim back to the target file. -/
def rollbackChange (s : EngineState) (sessionId backupId reason : String) :
    EngineState :=
  let active := s.activeSessions.map
    (fun t => if t.id = sessionId then rollbackSession reason t else t)
  let fs :=
    match s.backups.find? (fun b => decide (b.id = backupId)) with
    | none => s.fsContents
    | some b =>
        if b.configFile = "system" ∨ b.configFile = "algorithmic_optimization" then
          s.fsContents
        else fun p => if p = b.configFile then some b.originalContent else s.fsContents p
  { s with activeSessions := active, fsContents := fs }

/-- `validateAndFinalize`: unknown session ids are ignored.  `post = none`
models an exception while collecting post-change metrics: the `catch` block
rolls the session back with reason `"Validation error"` (the source does not
move it to the completed list on this path).  With measured metrics the
change is kept or rolled back per `validatePerformanceChange`, and the
session moves from the active map to the completed list. -/
def validateAndFinalize (s : EngineState) (sessionId backupId : String)
    (post : Option MetricsAvg) : EngineState :=
  match s.activeSessions.find? (fun t => decide (t.id = sessionId)) with
  | none => s
  | some session =>
      match post with
      | none => rollbackChange s sessionId backupId "Validation error"
      | some pm =>
          let v := validatePerformanceChange session.preChangeMetrics pm
          let session1 : Session := { session with postChangeMetrics := some pm }
          if v.recommendation = "keep" ∧ v.isValid = true then
            let final : Session :=
              { session1 with
                status := TuningStatus.successful,
                improvementMeasured := some v.improvementPercent }
            let remaining := s.activeSessions.filter (fun t => !(decide (t.id = sessionId)))
            { s with
              activeSessions := remaining,
              completedSessions := s.completedSessions ++ [final] }
          else
            let reason := String.intercalate "; " v.issues
            let withPost :=
              s.activeSessions.map (fun t => if t.id = sessionId then session1 else t)
            let s1 := rollbackChange { s with activeSessions := withPost }
              sessionId backupId reason
            let remaining := s1.activeSessions.filter (fun t => !(decide (t.id = sessionId)))
            { s1 with
              activeSessions := remaining,
              completedSessions := s1.completedSessions ++ [rollbackSession reason session1] }

/-- The aggregate record returned by `getTuningStats`. -/
structure TuningStats where
  totalSessions : ℕ
  successful : ℕ
  rolledBack : ℕ
  successRate : ℚ
  avgImprovement : ℚ
deriving DecidableEq

/-- `getTuningStats` over the completed-session list: both divisions are
guarded (`total > 0`, `successful > 0`), else 0.  `improvementMeasured || 0`
becomes `Option.getD 0`. -/
def getTuningStats (completedSessions : List Session) : TuningStats :=
  let total := completedSessions.length
  let successfulSessions :=
    completedSessions.filter (fun t => decide (t.status = TuningStatus.successful))
  let successful := successfulSessions.length
  let rolledBack :=
    (completedSessions.filter (fun t => decide (t.status = TuningStatus.rolledBack))).length
  { totalSessions := total
    successful := successful
    rolledBack := rolledBack
    successRate := if 0 < total then ((successful : ℚ) / total) * 100 else 0
    avgImprovement :=
      if 0 < successful then
        (successfulSessions.map (fun t => t.improvementMeasured.getD 0)).sum / successful
      else 0 }

/-- A fresh engine: empty session maps and backup index
(constructor defaults). -/
def initState (config : AutoTuningConfig) (fsContents : String → Option String)
    (fsWritable : String → Bool) : EngineState :=
  { config := config, fsContents := fsContents, fsWritable := fsWritable,
    activeSessions := [], backups := [], completedSessions := [] }

/-- One scheduler event of the engine: a `processSuggestions` tick or the
firing of a deferred validation (with its measured metrics, or `none` for a
measurement exception).  Ids, metrics and written bytes are arbitrary. -/
inductive Step : EngineState → EngineState → Prop where
  | process (s : EngineState) (suggestions : List Suggestion) (pre : MetricsAvg)
      (oracle : List (String × String × Option String)) :
      Step s (processSuggestions s suggestions pre oracle)
  | validate (s : EngineState) (sessionId backupId : String) (post : Option MetricsAvg) :
      Step s (validateAndFinalize s sessionId backupId post)

/-- States reachable from a fresh engine by any sequence of
`processSuggestions` calls and validation completions. -/
def Reachable (config : AutoTuningConfig) (fsContents : String → Option String)
    (fsWritable : String → Bool) (s : EngineState) : Prop :=
  Relation.ReflTransGen Step (initState config fsContents fsWritable) s

/-! ## Optimization Engine: suggestion post-processing
(`src/optimization/OptimizationEngine.ts`) -/

/-- `OptimizationPriority` (`src/types/optimization.ts`). -/
inductive OptPriority where
  | low
  | medium
  | high
  | critical
deriving DecidableEq

/-- The `priorityOrder` table in `filterAndPrioritizeSuggestions`:
`{ critical: 4, high: 3, medium: 2, low: 1 }`. -/
def priorityRank : OptPriority → ℕ
  | .critical => 4
  | .high => 3
  | .medium => 2
  | .low => 1

/-- The fields of `OptimizationSuggestion` read by the post-processing step
(deduplication key, sort keys).  The remaining fields are carried opaquely by
the source and do not affect `filterAndPrioritizeSuggestions`. -/
structure OptSuggestion where
  id : String
  priority : OptPriority
  configFile : String
  parameter : String
  confidence : ℚ
  riskLevel : String
deriving DecidableEq

/-- The deduplication key: two suggestions collide iff they agree on
`(configFile, parameter)`. -/
def SameKey (a b : OptSuggestion) : Prop :=
  a.configFile = b.configFile ∧ a.parameter = b.parameter

instance (a b : OptSuggestion) : Decidable (SameKey a b) := by
  unfold SameKey; infer_instance

/-- The `findIndex` deduplication filter: an element is kept iff no earlier
element shares its `(configFile, parameter)` key, i.e. each key's first
occurrence survives, in order. -/
def uniqueSuggestions : List OptSuggestion → List OptSuggestion
  | [] => []
  | x :: xs => x :: uniqueSuggestions (xs.filter (fun y => !(decide (SameKey x y))))
termination_by l => l.length
decreasing_by
  simp only [List.length_cons]
  exact Nat.lt_succ_of_le (List.length_filter_le _ _)

/-- The sort comparator of `filterAndPrioritizeSuggestions` as a boolean
order: `a` may precede `b` iff `a` has strictly higher priority rank, or
equal rank and confidence at least `b`'s (higher priority first, then higher
confidence first). -/
def suggLE (a b : OptSuggestion) : Bool :=
  decide (priorityRank b.priority < priorityRank a.priority)
    || (decide (priorityRank a.priority = priorityRank b.priority)
        && decide (b.confidence ≤ a.confidence))

/-- `filterAndPrioritizeSuggestions`: deduplicate keeping first occurrences,
then sort by descending priority rank, ties by descending confidence. -/
def filterAndPrioritizeSuggestions (suggestions : List OptSuggestion) :
    List OptSuggestion :=
  (uniqueSuggestions suggestions).mergeSort suggLE

/-- The post-processing applied by `generateSuggestions` to the concatenated
output of its four passes before returning (the returned value is
`filterAndPrioritizeSuggestions` of the pass results, which is also what is
appended to the running suggestion list). -/
def generateSuggestionsResult (newSuggestions : List OptSuggestion) :
    List OptSuggestion :=
  filterAndPrioritizeSuggestions newSuggestions

/-! ## Impact Analyzer (`src/analysis/ImpactAnalyzer.ts`)

The analyzer computes means, standard deviations (`Math.sqrt`) and score
arithmetic over IEEE numbers; it is embedded over `ℝ`. -/

/-- One metrics snapshot as consumed by the analyzer: `timestamp`,
`system.cpu.usage` and `system.memory.percentage`. -/
structure MSnapshot where
  timestamp : ℝ
  cpuUsage : ℝ
  memPercentage : ℝ

/-- `ConfigChangeEvent` (`src/types/analysis.ts`); the `configHash` field is
not read by the impact computation. -/
structure ChangeEvent where
  id : String
  timestamp : ℝ
  configFile : String
  parameter : Option String

/-- `AnalysisConfig` (`src/types/analysis.ts`). -/
structure AnalysisConfig where
  minSampleSize : ℕ
  stabilityThreshold : ℝ
  significanceThreshold : ℝ
  analysisWindow : ℝ

/-- Ambient nondeterminism the class can reach (`Date.now`, `Math.random`)
— used by `recordConfigChange`, `generateChangeId` and `getRecentChanges`,
threaded here to state that the impact computation reads none of it. -/
structure AnalyzerEnv where
  now : ℝ
  rand : ℕ → ℝ

/-- `average`: sum divided by length. -/
noncomputable def average (numbers : List ℝ) : ℝ :=
  numbers.sum / numbers.length

section AnalyzerDefs

open scoped Classical

/-- `ImpactAnalyzer.calculateStability`: `max(0, 1 − cov)` where `cov` is the
coefficient of variation `stdDev / mean` when `mean > 0`, else 0; series of
fewer than two values score 1. -/
noncomputable def ImpactAnalyzer.calculateStability (values : List ℝ) : ℝ :=
  if values.length < 2 then 1
  else
    let mean := values.sum / (values.length : ℝ)
    let variance := (values.map (fun v => (v - mean) ^ 2)).sum / (values.length : ℝ)
    let stdDev := Real.sqrt variance
    let coefficientOfVariation := if 0 < mean then stdDev / mean else 0
    max 0 (1 - coefficientOfVariation)

/-- `AutoTuningEngine.calculateStability`: same statistic over the snapshots'
CPU series, but the source computes `max(0, 1 - (stdDev / mean || 0))` with
IEEE division and no sign guard:
* `mean = 0, stdDev = 0`: `0/0` is NaN, `|| 0` replaces it, result `1`;
* `mean = 0, stdDev ≠ 0`: the quotient is infinite, `max(0, 1 − ∞) = 0`;
* `mean ≠ 0`: the finite quotient is kept — including when `mean < 0`. -/
noncomputable def AutoTuningEngine.calculateStability (snapshots : List MSnapshot) : ℝ :=
  if snapshots.length < 2 then 1
  else
    let cpuValues := snapshots.map (fun t => t.cpuUsage)
    let mean := cpuValues.sum / (cpuValues.length : ℝ)
    let variance := (cpuValues.map (fun v => (v - mean) ^ 2)).sum / (cpuValues.length : ℝ)
    let stdDev := Real.sqrt variance
    if mean = 0 then (if stdDev = 0 then 1 else 0)
    else max 0 (1 - stdDev / mean)

/-- `calculateImpactScore`: weighted deltas, clamped to `[-1, 1]`. -/
noncomputable def calculateImpactScore (cpuDelta memoryDelta stabilityDelta : ℝ) : ℝ :=
  let score :=
    0 - (cpuDelta / 100) * (4/10) - (memoryDelta / 100) * (3/10)
      + stabilityDelta * (3/10)
  max (-1) (min 1 score)

/-- `calculateConfidence`: blend of sample-size confidence and impact
magnitude confidence. -/
noncomputable def calculateConfidence (beforeSamples afterSamples : ℕ)
    (impactMagnitude : ℝ) : ℝ :=
  let minSamples := min beforeSamples afterSamples
  let sampleConfidence := min 1 ((minSamples : ℝ) / 10)
  let magnitudeConfidence := min 1 (impactMagnitude * 10)
  (sampleConfidence + magnitudeConfidence) / 2

/-- `generateEvidence`: an evidence line per delta exceeding the significance
threshold (resource deltas against `threshold × 100`, stability against the
raw threshold), else the no-impact line.  The `toFixed` magnitude rendering
is presentation-only and omitted from the strings. -/
noncomputable def generateEvidence (cfg : AnalysisConfig)
    (cpuDelta memoryDelta stabilityDelta : ℝ) : List String :=
  let evidence :=
    (if |cpuDelta| > cfg.significanceThreshold * 100 then
        [if cpuDelta > 0 then "CPU usage increased" else "CPU usage decreased"]
      else [])
    ++ (if |memoryDelta| > cfg.significanceThreshold * 100 then
        [if memoryDelta > 0 then "Memory usage increased" else "Memory usage decreased"]
      else [])
    ++ (if |stabilityDelta| > cfg.significanceThreshold then
        [if stabilityDelta > 0 then "System stability improved" else "System stability degraded"]
      else [])
  if evidence.isEmpty then ["No significant performance impact detected"] else evidence

/-- `generateRecommendation`: the four threshold bands on the impact score. -/
noncomputable def generateRecommendation (impactScore : ℝ) (configFile : String) :
    String :=
  if impactScore > 3/10 then
    "Positive impact detected. Consider keeping this configuration change in "
      ++ configFile ++ "."
  else if impactScore < -(3/10) then
    "Negative impact detected. Consider reverting changes to " ++ configFile ++ "."
  else if |impactScore| < 1/10 then
    "Minimal impact detected. Configuration change in " ++ configFile
      ++ " appears neutral."
  else
    "Minor impact detected. Monitor " ++ configFile ++ " for additional changes."

/-- `ImpactAnalysis` as produced by `analyzeChangeImpact`. -/
structure ImpactAnalysisResult where
  changeId : String
  configFile : String
  parameter : Option String
  impactScore : ℝ
  confidence : ℝ
  cpuDelta : ℝ
  memoryDelta : ℝ
  stabilityDelta : ℝ
  recommendation : String
  evidence : List String

/-- `analyzeChangeImpact`: partition the history into the before/after
windows around the change, require at least three samples on each side
(else no analysis), compute deltas, score, confidence, evidence and
recommendation.  `env` is the ambient nondeterminism; the body never reads
it. -/
noncomputable def analyzeChangeImpact (_env : AnalyzerEnv) (change : ChangeEvent)
    (metricsHistory : List MSnapshot) (cfg : AnalysisConfig) :
    Option ImpactAnalysisResult :=
  let beforeMetrics := metricsHistory.filter (fun m =>
    decide (m.timestamp < change.timestamp ∧
      change.timestamp - cfg.analysisWindow < m.timestamp))
  let afterMetrics := metricsHistory.filter (fun m =>
    decide (change.timestamp < m.timestamp ∧
      m.timestamp < change.timestamp + cfg.analysisWindow))
  if beforeMetrics.length < 3 ∨ afterMetrics.length < 3 then none
  else
    let cpuDelta := average (afterMetrics.map (fun m => m.cpuUsage))
      - average (beforeMetrics.map (fun m => m.cpuUsage))
    let memoryDelta := average (afterMetrics.map (fun m => m.memPercentage))
      - average (beforeMetrics.map (fun m => m.memPercentage))
    let stabilityDelta :=
      ImpactAnalyzer.calculateStability (afterMetrics.map (fun m => m.cpuUsage))
        - ImpactAnalyzer.calculateStability (beforeMetrics.map (fun m => m.cpuUsage))
    let impactScore := calculateImpactScore cpuDelta memoryDelta stabilityDelta
    let confidence :=
      calculateConfidence beforeMetrics.length afterMetrics.length |impactScore|
    some
      { changeId := change.id
        configFile := change.configFile
        parameter := change.parameter
        impactScore := impactScore
        confidence := confidence
        cpuDelta := cpuDelta
        memoryDelta := memoryDelta
        stabilityDelta := stabilityDelta
        recommendation := generateRecommendation impactScore change.configFile
        evidence := generateEvidence cfg cpuDelta memoryDelta stabilityDelta }

end AnalyzerDefs

/-! ## Theorems -/

/-- C10: with an empty completed-session list, `getTuningStats` returns
`successRate = 0` and `avgImprovement = 0` (both divisions are guarded and
never performed with a zero denominator). -/
theorem tuning_stats_empty_guards :
    (getTuningStats []).successRate = 0
    ∧ (getTuningStats []).avgImprovement = 0
    ∧ (getTuningStats []).totalSessions = 0 := by
  refine ⟨rfl, rfl, rfl⟩

/-- C6: the Impact Analyzer's score equals
`clamp(−1, 1, −0.4·cpuDelta/100 − 0.3·memoryDelta/100 + 0.3·stabilityDelta)`
and in particular always lies in `[-1, 1]`. -/
theorem impact_score_clamped (cpuDelta memoryDelta stabilityDelta : ℝ) :
    calculateImpactScore cpuDelta memoryDelta stabilityDelta
      = max (-1) (min 1
          (-(4/10) * (cpuDelta / 100) - (3/10) * (memoryDelta / 100)
            + (3/10) * stabilityDelta))
    ∧ -1 ≤ calculateImpactScore cpuDelta memoryDelta stabilityDelta
    ∧ calculateImpactScore cpuDelta memoryDelta stabilityDelta ≤ 1 := by
  refine ⟨?_, le_max_left _ _, max_le (by norm_num) (min_le_left _ _)⟩
  unfold calculateImpactScore
  ring_nf

/-- C9: the impact computation is deterministic — it reads none of the
ambient nondeterminism (`Date.now`, `Math.random`) available to the class,
so identical `(change, history, config)` inputs give identical
`impactScore`, `confidence` and `recommendation` (indeed an identical
analysis record) across runs. -/
theorem analyzeChangeImpact_deterministic (env₁ env₂ : AnalyzerEnv)
    (change : ChangeEvent) (metricsHistory : List MSnapshot)
    (cfg : AnalysisConfig) :
    analyzeChangeImpact env₁ change metricsHistory cfg
      = analyzeChangeImpact env₂ change metricsHistory cfg := rfl

/-- A suggestion targeting the virtual sentinel file, with risk rank within a
`"low"` threshold and confidence `0.75 ≥ 0.7` — the shape emitted by the
Optimization Engine's golden-ratio pass. -/
def virtualSuggestion : Suggestion :=
  { id := "opt_1"
    configFile := "algorithmic_optimization"
    parameter := "memory_optimization"
    currentValue := "92.0%"
    suggestedValue := "84.6%"
    expectedImpact := "Reduce memory usage"
    confidence := mkRat 3 4
    riskLevel := "low" }

/-- An engine over a file system with no file named after either sentinel
(the ordinary situation: the sentinels are not real paths). -/
def noFilesState : EngineState :=
  initState { enabled := true, maxConcurrentChanges := 1, riskThreshold := "low" }
    (fun _ => none) (fun _ => false)

/-- C4: contrary to the spec, the eligibility filter has no carve-out for
the virtual sentinel targets: a sentinel suggestion that passes the risk and
confidence gates is still rejected by the file-exists-and-writable check
whenever no real file bears the sentinel name, so the virtual-change
branches of `applyConfigurationChange` and `rollbackChange` are unreachable
through `processSuggestions`. -/
theorem sentinel_rejected_despite_thresholds :
    isWithinRiskThreshold noFilesState.config virtualSuggestion.riskLevel = true
    ∧ mkRat 7 10 ≤ virtualSuggestion.confidence
    ∧ isFileModifiable noFilesState virtualSuggestion.configFile = false
    ∧ filterEligibleSuggestions noFilesState [virtualSuggestion] = [] := by
  decide

/-- C1: the backup created by `applySuggestion` captures exactly the target
file's pre-apply bytes, and any `rollbackChange` that finds that backup (a
non-sentinel target) rewrites the target file with exactly those bytes. -/
theorem rollback_restores_backup
    (s : EngineState) (g : Suggestion) (sessionId backupId : String)
    (pre : MetricsAvg) (applied : Option String) (content : String)
    (hread : s.fsContents g.configFile = some content)
    (h1 : g.configFile ≠ "system") (h2 : g.configFile ≠ "algorithmic_optimization") :
    (applySuggestion s g sessionId backupId pre applied).backups
      = s.backups
        ++ [{ id := backupId, configFile := g.configFile,
              originalContent := content, reason := "Auto-tuning: " ++ g.id }]
    ∧ ∀ (s2 : EngineState) (sid reason : String),
        s2.backups.find? (fun b => decide (b.id = backupId))
          = some { id := backupId, configFile := g.configFile,
                   originalContent := content, reason := "Auto-tuning: " ++ g.id } →
        (rollbackChange s2 sid backupId reason).fsContents g.configFile
          = some content := by
  constructor
  · unfold applySuggestion
    rw [hread]
  · intro s2 sid reason hfind
    unfold rollbackChange
    rw [hfind]
    simp only
    rw [if_neg (by simp [h1, h2])]
    simp

/-- A one-file file system holding the pre-apply bytes of `app.json`. -/
def fsExample : String → Option String :=
  fun p => if p = "app.json" then some "original-bytes" else none

/-- A concrete eligible suggestion targeting `app.json`. -/
def suggExample : Suggestion :=
  { id := "opt_2"
    configFile := "app.json"
    parameter := "cache.size"
    currentValue := "100"
    suggestedValue := "50"
    expectedImpact := "Reduce memory usage"
    confidence := mkRat 4 5
    riskLevel := "low" }

/-- A fresh engine over that file system. -/
def stateExample : EngineState :=
  initState { enabled := true, maxConcurrentChanges := 1, riskThreshold := "low" }
    fsExample (fun _ => true)

/-- Witness for C1: applying `suggExample` (writing mutated bytes) and then
rolling back restores `app.json` to its original bytes. -/
theorem rollback_restores_backup_witness :
    stateExample.fsContents suggExample.configFile = some "original-bytes"
    ∧ suggExample.configFile ≠ "system"
    ∧ suggExample.configFile ≠ "algorithmic_optimization"
    ∧ (rollbackChange
          (applySuggestion stateExample suggExample "tune_1" "backup_1"
            { avgCpu := 50, avgMemory := 60, stability := 1 } (some "mutated-bytes"))
          "tune_1" "backup_1" "CPU usage increased significantly").fsContents
        suggExample.configFile = some "original-bytes" := by
  have h := rollback_restores_backup stateExample suggExample "tune_1" "backup_1"
    { avgCpu := 50, avgMemory := 60, stability := 1 } (some "mutated-bytes")
    "original-bytes" (by decide) (by decide) (by decide)
  exact ⟨by decide, by decide, by decide,
    h.2 _ "tune_1" "CPU usage increased significantly" (by decide)⟩

/-- `rollbackSession` preserves the session id. -/
theorem rollbackSession_id (reason : String) (t : Session) :
    (rollbackSession reason t).id = t.id := rfl

/-- Finding a session by id after the in-place rollback update returns the
rolled-back version of the session found before. -/
theorem find?_rollback_update (l : List Session) (sessionId reason : String) :
    (l.map (fun t => if t.id = sessionId then rollbackSession reason t else t)).find?
        (fun t => decide (t.id = sessionId))
      = (l.find? (fun t => decide (t.id = sessionId))).map (rollbackSession reason) := by
  induction l with
  | nil => rfl
  | cons x xs ih =>
    by_cases hx : x.id = sessionId
    · simp [List.find?_cons, hx, rollbackSession]
    · simp [List.find?_cons, hx, ih]

/-- Deleting a session id then searching for it finds nothing. -/
theorem find?_filter_ne_none (l : List Session) (sessionId : String) :
    (l.filter (fun t => !(decide (t.id = sessionId)))).find?
        (fun t => decide (t.id = sessionId)) = none := by
  rw [List.find?_eq_none]
  intro x hx
  rcases List.mem_filter.mp hx with ⟨-, hkeep⟩
  simpa using hkeep

/-- `applySuggestion` never touches the completed-session list. -/
theorem applySuggestion_completed (s : EngineState) (g : Suggestion)
    (sessionId backupId : String) (pre : MetricsAvg) (applied : Option String) :
    (applySuggestion s g sessionId backupId pre applied).completedSessions
      = s.completedSessions := by
  unfold applySuggestion
  cases s.fsContents g.configFile <;> rfl

/-- Folding `applySuggestion` over admitted suggestions never touches the
completed-session list. -/
theorem foldl_applySuggestion_completed
    (xs : List (Suggestion × String × String × Option String)) (s : EngineState)
    (pre : MetricsAvg) :
    (xs.foldl (fun st p => applySuggestion st p.1 p.2.1 p.2.2.1 pre p.2.2.2)
        s).completedSessions = s.completedSessions := by
  induction xs generalizing s with
  | nil => rfl
  | cons x xs ih => rw [List.foldl_cons, ih, applySuggestion_completed]

/-- C5: an exception while measuring post-change metrics forces a rollback
with reason `"Validation error"` — the session leaves `TESTING` (its status
becomes `ROLLED_BACK`); a validation that completes removes the session from
the active set and appends it, with a terminal status, to the completed
list; and the completed list is append-only under every engine operation
(finalized sessions are never re-entered). -/
theorem validation_finalization
    (s : EngineState) (sessionId backupId : String) (session : Session)
    (hfind : s.activeSessions.find? (fun t => decide (t.id = sessionId))
      = some session) :
    ((validateAndFinalize s sessionId backupId none).activeSessions.find?
          (fun t => decide (t.id = sessionId))
        = some (rollbackSession "Validation error" session)
      ∧ (rollbackSession "Validation error" session).status = TuningStatus.rolledBack
      ∧ (rollbackSession "Validation error" session).rollbackReason
          = some "Validation error")
    ∧ (∀ pm : MetricsAvg,
        (validateAndFinalize s sessionId backupId (some pm)).activeSessions.find?
            (fun t => decide (t.id = sessionId)) = none
        ∧ ∃ t, (validateAndFinalize s sessionId backupId (some pm)).completedSessions
              = s.completedSessions ++ [t]
            ∧ (t.status = TuningStatus.successful ∨ t.status = TuningStatus.rolledBack))
    ∧ (∀ (s1 : EngineState) (sid bid : String) (post : Option MetricsAvg),
        ∃ tail, (validateAndFinalize s1 sid bid post).completedSessions
          = s1.completedSessions ++ tail)
    ∧ (∀ (s1 : EngineState) (suggestions : List Suggestion) (pre : MetricsAvg)
        (oracle : List (String × String × Option String)),
        ∃ tail, (processSuggestions s1 suggestions pre oracle).completedSessions
          = s1.completedSessions ++ tail) := by
  refine ⟨?_, ?_, ?_, ?_⟩
  · unfold validateAndFinalize
    rw [hfind]
    unfold rollbackChange
    refine ⟨?_, rfl, rfl⟩
    simp only
    rw [find?_rollback_update, hfind]
    rfl
  · intro pm
    unfold validateAndFinalize
    rw [hfind]
    simp only
    split
    · exact ⟨find?_filter_ne_none _ _, _, rfl, Or.inl rfl⟩
    · exact ⟨find?_filter_ne_none _ _, _, rfl, Or.inr rfl⟩
  · intro s1 sid bid post
    unfold validateAndFinalize
    cases hf : s1.activeSessions.find? (fun t => decide (t.id = sid)) with
    | none => exact ⟨[], by simp⟩
    | some t =>
      cases post with
      | none => exact ⟨[], by simp [rollbackChange]⟩
      | some pm =>
        simp only
        split
        · exact ⟨_, rfl⟩
        · exact ⟨_, rfl⟩
  · intro s1 suggestions pre oracle
    unfold processSuggestions
    split
    · dsimp only
      split
      · exact ⟨[], by simp⟩
      · exact ⟨[], by simp [foldl_applySuggestion_completed]⟩
    · exact ⟨[], by simp⟩

/-- A concrete engine state holding one active `TESTING` session. -/
def sessionExample : Session :=
  mkSession suggExample "tune_1" { avgCpu := 50, avgMemory := 60, stability := 1 }

/-- The state of `stateExample` after applying `suggExample`. -/
def appliedState : EngineState :=
  applySuggestion stateExample suggExample "tune_1" "backup_1"
    { avgCpu := 50, avgMemory := 60, stability := 1 } (some "mutated-bytes")

/-- Witness for C5 at a concrete applied session. -/
theorem validation_finalization_witness :
    appliedState.activeSessions.find? (fun t => decide (t.id = "tune_1"))
      = some sessionExample
    ∧ (validateAndFinalize appliedState "tune_1" "backup_1" none).activeSessions.find?
        (fun t => decide (t.id = "tune_1"))
      = some (rollbackSession "Validation error" sessionExample) := by
  have h := validation_finalization appliedState "tune_1" "backup_1" sessionExample
    (by decide)
  exact ⟨by decide, h.1.1⟩

/-- The engine keeps a change iff the validation is valid and the weighted
overall improvement exceeds 2: `recommendation = "keep"` (together with the
`isValid` re-check in `validateAndFinalize`) is equivalent to
`isValid ∧ overallImprovement > 2`. -/
theorem validate_recommendation_keep_iff (b a : MetricsAvg) :
    ((validatePerformanceChange b a).recommendation = "keep"
        ∧ (validatePerformanceChange b a).isValid = true)
      ↔ ((validatePerformanceChange b a).isValid = true
        ∧ 2 < (b.avgCpu - a.avgCpu) * mkRat 4 10
            + (b.avgMemory - a.avgMemory) * mkRat 4 10
            + (a.stability - b.stability) * 20) := by
  simp only [validatePerformanceChange]
  split
  next h =>
    rw [Bool.and_eq_true] at h
    rw [decide_eq_true_eq] at h
    simp [h.1, h.2]
  next h =>
    have hne : ¬(("rollback" : String) = "keep") := by decide
    constructor
    · rintro ⟨hk, -⟩
      exact absurd hk hne
    · rintro ⟨hE, hov⟩
      rw [hE, decide_eq_true hov] at h
      exact absurd h (by simp)

/-- C3: with `overallImprovement = 0.4·cpuImprovement + 0.4·memoryImprovement
+ 20·stabilityImprovement`, a validated session is kept (finalized
`SUCCESSFUL`) iff `isValid` holds and `overallImprovement > 2`; otherwise it
is rolled back, with the rollback reason citing the triggered issues — in
source order CPU increase >10%, memory increase >10%, stability drop >10% —
joined by `"; "` (so the first cited issue is the first triggered one). -/
theorem keep_iff_improvement
    (s : EngineState) (sessionId backupId : String) (session : Session)
    (pm : MetricsAvg)
    (hfind : s.activeSessions.find? (fun t => decide (t.id = sessionId))
      = some session) :
    (((validatePerformanceChange session.preChangeMetrics pm).recommendation = "keep"
        ∧ (validatePerformanceChange session.preChangeMetrics pm).isValid = true)
      ↔ ((validatePerformanceChange session.preChangeMetrics pm).isValid = true
        ∧ 2 < (session.preChangeMetrics.avgCpu - pm.avgCpu) * mkRat 4 10
            + (session.preChangeMetrics.avgMemory - pm.avgMemory) * mkRat 4 10
            + (pm.stability - session.preChangeMetrics.stability) * 20))
    ∧ (((validatePerformanceChange session.preChangeMetrics pm).isValid = true
        ∧ 2 < (session.preChangeMetrics.avgCpu - pm.avgCpu) * mkRat 4 10
            + (session.preChangeMetrics.avgMemory - pm.avgMemory) * mkRat 4 10
            + (pm.stability - session.preChangeMetrics.stability) * 20) →
        (validateAndFinalize s sessionId backupId (some pm)).completedSessions
          = s.completedSessions
            ++ [{ session with
                  postChangeMetrics := some pm,
                  status := TuningStatus.successful,
                  improvementMeasured := some (validatePerformanceChange
                    session.preChangeMetrics pm).improvementPercent }])
    ∧ (¬((validatePerformanceChange session.preChangeMetrics pm).isValid = true
        ∧ 2 < (session.preChangeMetrics.avgCpu - pm.avgCpu) * mkRat 4 10
            + (session.preChangeMetrics.avgMemory - pm.avgMemory) * mkRat 4 10
            + (pm.stability - session.preChangeMetrics.stability) * 20) →
        (validateAndFinalize s sessionId backupId (some pm)).completedSessions
          = s.completedSessions
            ++ [{ session with
                  postChangeMetrics := some pm,
                  status := TuningStatus.rolledBack,
                  rollbackReason := some (String.intercalate "; "
                    (validatePerformanceChange session.preChangeMetrics pm).issues) }]
        ∧ (validatePerformanceChange session.preChangeMetrics pm).issues
          = (if session.preChangeMetrics.avgCpu * mkRat 11 10 < pm.avgCpu then
              ["CPU usage increased significantly"] else [])
            ++ (if session.preChangeMetrics.avgMemory * mkRat 11 10 < pm.avgMemory then
              ["Memory usage increased significantly"] else [])
            ++ (if pm.stability < session.preChangeMetrics.stability * mkRat 9 10 then
              ["System stability decreased"] else [])) := by
  refine ⟨validate_recommendation_keep_iff session.preChangeMetrics pm, ?_, ?_⟩
  · intro hkeep
    unfold validateAndFinalize
    rw [hfind]
    simp only
    rw [if_pos ((validate_recommendation_keep_iff session.preChangeMetrics pm).mpr hkeep)]
  · intro hnot
    unfold validateAndFinalize
    rw [hfind]
    simp only
    rw [if_neg (fun hL =>
      hnot ((validate_recommendation_keep_iff session.preChangeMetrics pm).mp hL))]
    exact ⟨rfl, rfl⟩

/-- Witness for C3, the spec's Scenario D: pre `{50, 60, 1}`, post
`{40, 60, 1}` gives `overallImprovement = 4 > 2` with `isValid`, so the
session finalizes `SUCCESSFUL`. -/
theorem keep_iff_improvement_witness :
    appliedState.activeSessions.find? (fun t => decide (t.id = "tune_1"))
      = some sessionExample
    ∧ (validateAndFinalize appliedState "tune_1" "backup_1"
          (some { avgCpu := 40, avgMemory := 60, stability := 1 })).completedSessions
        = appliedState.completedSessions
          ++ [{ sessionExample with
                postChangeMetrics := some { avgCpu := 40, avgMemory := 60, stability := 1 },
                status := TuningStatus.successful,
                improvementMeasured := some (validatePerformanceChange
                  sessionExample.preChangeMetrics
                  { avgCpu := 40, avgMemory := 60, stability := 1 }).improvementPercent }] := by
  have h := keep_iff_improvement appliedState "tune_1" "backup_1" sessionExample
    { avgCpu := 40, avgMemory := 60, stability := 1 } (by decide)
  refine ⟨by decide, h.2.1 ⟨?_, ?_⟩⟩
  · norm_num [validatePerformanceChange, Rat.mkRat_eq_div, sessionExample, mkSession]
  · norm_num [Rat.mkRat_eq_div, sessionExample, mkSession]

/-- `applySuggestion` leaves the configuration unchanged. -/
theorem applySuggestion_config (s : EngineState) (g : Suggestion)
    (sessionId backupId : String) (pre : MetricsAvg) (applied : Option String) :
    (applySuggestion s g sessionId backupId pre applied).config = s.config := by
  unfold applySuggestion
  cases s.fsContents g.configFile <;> rfl

/-- `applySuggestion` registers at most one new active session. -/
theorem applySuggestion_active_le (s : EngineState) (g : Suggestion)
    (sessionId backupId : String) (pre : MetricsAvg) (applied : Option String) :
    (applySuggestion s g sessionId backupId pre applied).activeSessions.length
      ≤ s.activeSessions.length + 1 := by
  unfold applySuggestion
  cases s.fsContents g.configFile
  · exact Nat.le_succ _
  · simp

/-- Folding `applySuggestion` over a list of admitted suggestions adds at
most one active session per element and keeps the configuration. -/
theorem foldl_applySuggestion_bound
    (xs : List (Suggestion × String × String × Option String)) (s : EngineState)
    (pre : MetricsAvg) :
    ((xs.foldl (fun st p => applySuggestion st p.1 p.2.1 p.2.2.1 pre p.2.2.2)
        s).activeSessions.length ≤ s.activeSessions.length + xs.length)
    ∧ (xs.foldl (fun st p => applySuggestion st p.1 p.2.1 p.2.2.1 pre p.2.2.2)
        s).config = s.config := by
  induction xs generalizing s with
  | nil => exact ⟨Nat.le_add_right _ _, rfl⟩
  | cons x xs ih =>
    rw [List.foldl_cons]
    refine ⟨?_, ?_⟩
    · have h1 := (ih (applySuggestion s x.1 x.2.1 x.2.2.1 pre x.2.2.2)).1
      have h2 := applySuggestion_active_le s x.1 x.2.1 x.2.2.1 pre x.2.2.2
      simp only [List.length_cons]
      omega
    · rw [(ih _).2, applySuggestion_config]

/-- `rollbackChange` does not change the number of active sessions (it only
updates the matching one in place). -/
theorem rollbackChange_active_length (s : EngineState)
    (sessionId backupId reason : String) :
    (rollbackChange s sessionId backupId reason).activeSessions.length
      = s.activeSessions.length := by
  simp [rollbackChange]

/-- `validateAndFinalize` keeps the configuration and never grows the active
session set. -/
theorem validateAndFinalize_bound (s : EngineState) (sessionId backupId : String)
    (post : Option MetricsAvg) :
    (validateAndFinalize s sessionId backupId post).config = s.config
    ∧ (validateAndFinalize s sessionId backupId post).activeSessions.length
        ≤ s.activeSessions.length := by
  unfold validateAndFinalize
  cases hf : s.activeSessions.find? (fun t => decide (t.id = sessionId)) with
  | none => exact ⟨rfl, le_refl _⟩
  | some t =>
    cases post with
    | none => exact ⟨rfl, by simp [rollbackChange]⟩
    | some pm =>
      simp only
      split
      · exact ⟨rfl, List.length_filter_le _ _⟩
      · refine ⟨rfl, ?_⟩
        refine le_trans (List.length_filter_le _ _) ?_
        rw [rollbackChange_active_length]
        simp

/-- `processSuggestions` keeps the configuration and — from any state within
capacity — admits at most `maxConcurrentChanges − |active|` new sessions, so
the bound is preserved. -/
theorem processSuggestions_bound (s : EngineState) (suggestions : List Suggestion)
    (pre : MetricsAvg) (oracle : List (String × String × Option String))
    (h : s.activeSessions.length ≤ s.config.maxConcurrentChanges) :
    (processSuggestions s suggestions pre oracle).config = s.config
    ∧ (processSuggestions s suggestions pre oracle).activeSessions.length
        ≤ s.config.maxConcurrentChanges := by
  unfold processSuggestions
  split
  · dsimp only
    split
    · exact ⟨rfl, h⟩
    · have hfold := foldl_applySuggestion_bound
        ((jsSliceTake (filterEligibleSuggestions s suggestions)
          ((s.config.maxConcurrentChanges : ℤ) - s.activeSessions.length)).zip oracle)
        s pre
      refine ⟨hfold.2, ?_⟩
      have hzip : ((jsSliceTake (filterEligibleSuggestions s suggestions)
          ((s.config.maxConcurrentChanges : ℤ) - s.activeSessions.length)).zip
            oracle).length
          ≤ (jsSliceTake (filterEligibleSuggestions s suggestions)
            ((s.config.maxConcurrentChanges : ℤ) - s.activeSessions.length)).length := by
        rw [List.length_zip]
        exact Nat.min_le_left _ _
      have htake : (jsSliceTake (filterEligibleSuggestions s suggestions)
          ((s.config.maxConcurrentChanges : ℤ) - s.activeSessions.length)).length
          ≤ s.config.maxConcurrentChanges - s.activeSessions.length := by
        unfold jsSliceTake
        rw [if_pos (by omega)]
        have := List.length_take
          ((s.config.maxConcurrentChanges : ℤ) - s.activeSessions.length).toNat
          (filterEligibleSuggestions s suggestions)
        omega
      have := hfold.1
      omega
  · exact ⟨rfl, h⟩

/-- One engine step preserves the configuration and the capacity bound. -/
theorem step_bound {s1 s2 : EngineState} (hstep : Step s1 s2)
    (h : s1.activeSessions.length ≤ s1.config.maxConcurrentChanges) :
    s2.config = s1.config
    ∧ s2.activeSessions.length ≤ s1.config.maxConcurrentChanges := by
  cases hstep with
  | process suggestions pre oracle =>
    exact processSuggestions_bound _ suggestions pre oracle h
  | validate sessionId backupId post =>
    have hv := validateAndFinalize_bound s1 sessionId backupId post
    exact ⟨hv.1, le_trans hv.2 h⟩

/-- C2: from a fresh engine, under any sequence of `processSuggestions`
calls and validation completions, at no point do more than
`maxConcurrentChanges` sessions have status `TESTING` (indeed the whole
active set never exceeds the bound: each call admits at most
`maxConcurrentChanges − |active|` eligible suggestions, in order). -/
theorem testing_sessions_bounded (config : AutoTuningConfig)
    (fsContents : String → Option String) (fsWritable : String → Bool)
    (s : EngineState) (h : Reachable config fsContents fsWritable s) :
    (s.activeSessions.filter
        (fun t => decide (t.status = TuningStatus.testing))).length
      ≤ config.maxConcurrentChanges := by
  have key : s.config = config
      ∧ s.activeSessions.length ≤ config.maxConcurrentChanges := by
    unfold Reachable at h
    induction h with
    | refl => exact ⟨rfl, by simp [initState]⟩
    | tail hsteps hstep ih =>
      have hs := step_bound hstep (by rw [ih.1]; exact ih.2)
      exact ⟨hs.1.trans ih.1, by rw [← ih.1]; exact hs.2⟩
  exact le_trans (List.length_filter_le _ _) key.2

/-- Witness for C2 at the fresh engine with `maxConcurrentChanges = 1`. -/
theorem testing_sessions_bounded_witness :
    ((initState { enabled := true, maxConcurrentChanges := 1, riskThreshold := "low" }
        (fun _ => none) (fun _ => false)).activeSessions.filter
          (fun t => decide (t.status = TuningStatus.testing))).length ≤ 1 :=
  testing_sessions_bounded
    { enabled := true, maxConcurrentChanges := 1, riskThreshold := "low" }
    (fun _ => none) (fun _ => false) _ Relation.ReflTransGen.refl

/-- The deduplication key relation is reflexive. -/
theorem sameKey_refl (a : OptSuggestion) : SameKey a a := ⟨rfl, rfl⟩

/-- The deduplication key relation is symmetric. -/
theorem sameKey_symm {a b : OptSuggestion} (h : SameKey a b) : SameKey b a :=
  ⟨h.1.symm, h.2.symm⟩

/-- The deduplication key relation is transitive. -/
theorem sameKey_trans {a b c : OptSuggestion} (h1 : SameKey a b) (h2 : SameKey b c) :
    SameKey a c := ⟨h1.1.trans h2.1, h1.2.trans h2.2⟩

/-- Filtering by a predicate implied by the search predicate does not change
the first hit. -/
theorem find?_filter_of_imp {α : Type} (l : List α) (p q : α → Bool)
    (h : ∀ t, p t = true → q t = true) :
    (l.filter q).find? p = l.find? p := by
  induction l with
  | nil => rfl
  | cons x xs ih =>
    cases hq : q x with
    | true =>
      rw [List.filter_cons_of_pos hq]
      rw [List.find?_cons, List.find?_cons, ih]
    | false =>
      have hp : p x = false := by
        cases hpx : p x with
        | true => exact absurd (h x hpx) (by simp [hq])
        | false => rfl
      rw [List.filter_cons_of_neg (by simp [hq])]
      rw [List.find?_cons, hp, ih]

/-- The deduplicated list draws from the input, has pairwise-distinct
`(configFile, parameter)` keys, and keeps per key exactly the input's first
occurrence (searching the input for an output element's key finds that very
element). -/
theorem uniqueSuggestions_props (l : List OptSuggestion) :
    (∀ x ∈ uniqueSuggestions l, x ∈ l)
    ∧ (uniqueSuggestions l).Pairwise (fun a b => ¬ SameKey a b)
    ∧ (∀ x ∈ uniqueSuggestions l,
        l.find? (fun t => decide (SameKey t x)) = some x) := by
  induction l using uniqueSuggestions.induct with
  | case1 =>
    refine ⟨?_, ?_, ?_⟩ <;> simp [uniqueSuggestions]
  | case2 x xs ih =>
    have hstep : uniqueSuggestions (x :: xs)
        = x :: uniqueSuggestions (xs.filter (fun y => !(decide (SameKey x y)))) := by
      rw [uniqueSuggestions]
    have hmemF : ∀ y ∈ xs.filter (fun y => !(decide (SameKey x y))), ¬ SameKey x y := by
      intro y hy
      have := (List.mem_filter.mp hy).2
      simpa using this
    have hnotx : ∀ y ∈ uniqueSuggestions (xs.filter (fun y => !(decide (SameKey x y)))),
        ¬ SameKey x y := fun y hy => hmemF y (ih.1 y hy)
    refine ⟨?_, ?_, ?_⟩
    · intro y hy
      rw [hstep] at hy
      rcases List.mem_cons.mp hy with hy | hy
      · exact hy ▸ List.mem_cons_self x xs
      · exact List.mem_cons_of_mem x ((List.mem_filter.mp (ih.1 y hy)).1)
    · rw [hstep]
      exact List.pairwise_cons.mpr ⟨hnotx, ih.2.1⟩
    · intro y hy
      rw [hstep] at hy
      rcases List.mem_cons.mp hy with hy | hy
      · subst hy
        rw [List.find?_cons]
        rw [decide_eq_true (sameKey_refl y)]
      · have hxy : ¬ SameKey x y := hnotx y hy
        have hF := ih.2.2 y hy
        have hxs : xs.find? (fun t => decide (SameKey t y)) = some y := by
          rw [← find?_filter_of_imp xs (fun t => decide (SameKey t y))
            (fun t => !(decide (SameKey x t)))]
          · exact hF
          · intro t ht
            have hty : SameKey t y := of_decide_eq_true ht
            have : ¬ SameKey x t := fun hxt => hxy (sameKey_trans hxt hty)
            simpa using this
        rw [List.find?_cons]
        rw [decide_eq_false hxy, hxs]

/-- The boolean comparator order is transitive. -/
theorem suggLE_trans : ∀ (a b c : OptSuggestion),
    suggLE a b = true → suggLE b c = true → suggLE a c = true := by
  intro a b c hab hbc
  simp only [suggLE, Bool.or_eq_true, Bool.and_eq_true, decide_eq_true_eq] at *
  rcases hab with h1 | ⟨h1, h2⟩ <;> rcases hbc with h3 | ⟨h3, h4⟩
  · exact Or.inl (h3.trans h1)
  · exact Or.inl (h3 ▸ h1)
  · exact Or.inl (h1 ▸ h3)
  · exact Or.inr ⟨h1.trans h3, h4.trans h2⟩

/-- The boolean comparator order is total. -/
theorem suggLE_total : ∀ (a b : OptSuggestion),
    (suggLE a b || suggLE b a) = true := by
  intro a b
  simp only [suggLE, Bool.or_eq_true, Bool.and_eq_true, decide_eq_true_eq]
  rcases Nat.lt_trichotomy (priorityRank a.priority) (priorityRank b.priority)
    with h | h | h
  · right; left; exact h
  · rcases le_total a.confidence b.confidence with hc | hc
    · right; right; exact ⟨h.symm, hc⟩
    · left; right; exact ⟨h, hc⟩
  · left; left; exact h

/-- C8: the returned suggestion list contains at most one suggestion per
`(configFile, parameter)` pair — for each kept key the input's first
occurrence survives — and is sorted by descending priority rank
(critical > high > medium > low) with ties broken by descending
confidence. -/
theorem suggestions_deduped_and_sorted (newSuggestions : List OptSuggestion) :
    (generateSuggestionsResult newSuggestions).Pairwise (fun a b => ¬ SameKey a b)
    ∧ (generateSuggestionsResult newSuggestions).Pairwise (fun a b =>
        priorityRank b.priority < priorityRank a.priority
        ∨ (priorityRank a.priority = priorityRank b.priority
            ∧ b.confidence ≤ a.confidence))
    ∧ (∀ x ∈ generateSuggestionsResult newSuggestions,
        newSuggestions.find? (fun t => decide (SameKey t x)) = some x) := by
  have hprops := uniqueSuggestions_props newSuggestions
  have hperm := List.mergeSort_perm (uniqueSuggestions newSuggestions) suggLE
  have hsymm : ∀ {a b : OptSuggestion}, ¬ SameKey a b → ¬ SameKey b a :=
    fun hab hk => hab (sameKey_symm hk)
  refine ⟨?_, ?_, ?_⟩
  · exact (hperm.pairwise_iff hsymm).mpr hprops.2.1
  · have hs := List.sorted_mergeSort suggLE_trans suggLE_total
      (uniqueSuggestions newSuggestions)
    refine hs.imp ?_
    intro a b hab
    simpa [suggLE, Bool.or_eq_true, Bool.and_eq_true, decide_eq_true_eq] using hab
  · intro x hx
    exact hprops.2.2 x (hperm.subset hx)

/-- A CPU series with negative mean: two snapshots at CPU 1 and CPU −3. -/
def negativeCpuSnapshots : List MSnapshot :=
  [{ timestamp := 0, cpuUsage := 1, memPercentage := 0 },
   { timestamp := 1, cpuUsage := -3, memPercentage := 0 }]

/-- C7 counterexample: the Auto-Tuning Engine's `calculateStability` has no
sign guard on the mean, so on the series `[1, −3]` (mean −1, standard
deviation 2) it returns `max(0, 1 − 2/(−1)) = 3`, outside `[0, 1]`. -/
theorem engine_stability_counterexample :
    AutoTuningEngine.calculateStability negativeCpuSnapshots = 3
    ∧ ¬(AutoTuningEngine.calculateStability negativeCpuSnapshots ≤ 1) := by
  have hsqrt : Real.sqrt 4 = 2 := by
    rw [show (4:ℝ) = 2^2 by norm_num]
    exact Real.sqrt_sq (by norm_num)
  have h3 : AutoTuningEngine.calculateStability negativeCpuSnapshots = 3 := by
    unfold AutoTuningEngine.calculateStability negativeCpuSnapshots
    rw [if_neg (by norm_num)]
    dsimp only
    norm_num
    rw [hsqrt]
    rw [show (1 : ℝ) - 2 / -1 = 3 by norm_num]
    exact max_eq_right (by norm_num)
  exact ⟨h3, by rw [h3]; norm_num⟩

/-- `max 0 (1 − cov)` never exceeds 1 when the coefficient of variation is
nonnegative. -/
theorem stability_clamp_le_one {cov : ℝ} (h : 0 ≤ cov) : max 0 (1 - cov) ≤ 1 :=
  max_le (by norm_num) (by linarith)

/-- In an all-nonnegative list a zero sum forces every element to zero. -/
theorem all_zero_of_sum_zero {l : List ℝ} (h : ∀ x ∈ l, 0 ≤ x) (hs : l.sum = 0) :
    ∀ x ∈ l, x = 0 := by
  induction l with
  | nil => simp
  | cons a t ih =>
    have ha : 0 ≤ a := h a (List.mem_cons_self a t)
    have ht : ∀ x ∈ t, 0 ≤ x := fun x hx => h x (List.mem_cons_of_mem a hx)
    have hts : 0 ≤ t.sum := List.sum_nonneg ht
    rw [List.sum_cons] at hs
    intro x hx
    rcases List.mem_cons.mp hx with rfl | hx
    · linarith
    · exact ih ht (by linarith) x hx

/-- The Impact Analyzer's stability lies in `[0, 1]` for every series. -/
theorem analyzer_stability_mem_unit (values : List ℝ) :
    0 ≤ ImpactAnalyzer.calculateStability values
    ∧ ImpactAnalyzer.calculateStability values ≤ 1 := by
  unfold ImpactAnalyzer.calculateStability
  split
  · norm_num
  · dsimp only
    refine ⟨le_max_left _ _, ?_⟩
    refine stability_clamp_le_one ?_
    split
    next h => exact div_nonneg (Real.sqrt_nonneg _) h.le
    next => exact le_refl 0

/-- The variance of a constant list is zero (each squared deviation from the
mean vanishes). -/
theorem variance_sum_const_zero (values : List ℝ) (c : ℝ)
    (hc : ∀ x ∈ values, x = c) (hlen : (values.length : ℝ) ≠ 0) :
    (values.map (fun v => (v - values.sum / (values.length : ℝ)) ^ 2)).sum = 0 := by
  have hmean : values.sum / (values.length : ℝ) = c := by
    have hsum : values.sum = (values.length : ℝ) * c := by
      conv_lhs => rw [List.eq_replicate_length.mpr hc]
      rw [List.sum_replicate, nsmul_eq_mul]
    rw [hsum]
    field_simp
  apply List.sum_eq_zero
  intro x hx
  rcases List.mem_map.mp hx with ⟨v, hv, rfl⟩
  rw [hmean, hc v hv]
  ring

/-- The Impact Analyzer's stability of a constant series is exactly 1. -/
theorem analyzer_stability_const (values : List ℝ) (c : ℝ)
    (hc : ∀ x ∈ values, x = c) :
    ImpactAnalyzer.calculateStability values = 1 := by
  unfold ImpactAnalyzer.calculateStability
  split
  · rfl
  next hlen =>
    dsimp only
    have hlen0 : (values.length : ℝ) ≠ 0 := by
      have : 2 ≤ values.length := Nat.le_of_not_lt hlen
      exact Nat.cast_ne_zero.mpr (by omega)
    rw [variance_sum_const_zero values c hc hlen0, zero_div, Real.sqrt_zero]
    split
    · rw [zero_div]
      norm_num
    · norm_num

/-- The Auto-Tuning Engine's stability of a constant CPU series is exactly 1
(the variance vanishes, and the `NaN || 0` path also yields 1 when the mean
is zero). -/
theorem engine_stability_const (snapshots : List MSnapshot) (c : ℝ)
    (hc : ∀ t ∈ snapshots, t.cpuUsage = c) :
    AutoTuningEngine.calculateStability snapshots = 1 := by
  unfold AutoTuningEngine.calculateStability
  split
  · rfl
  next hlen =>
    dsimp only
    have hc' : ∀ x ∈ snapshots.map (fun t => t.cpuUsage), x = c := by
      intro x hx
      rcases List.mem_map.mp hx with ⟨t, ht, rfl⟩
      exact hc t ht
    have hlen0 : ((snapshots.map (fun t => t.cpuUsage)).length : ℝ) ≠ 0 := by
      have : 2 ≤ snapshots.length := Nat.le_of_not_lt hlen
      rw [List.length_map]
      exact Nat.cast_ne_zero.mpr (by omega)
    rw [variance_sum_const_zero _ c hc' hlen0, zero_div, Real.sqrt_zero]
    split
    · rw [if_pos rfl]
    · rw [zero_div]
      norm_num

/-- C7 as amended: for **every** non-empty numeric series — negative values
included — the Impact Analyzer's stability lies in `[0, 1]` and a constant
series scores exactly 1; the Auto-Tuning Engine's version also scores 1 on
every constant CPU series, but its `[0, 1]` bounds hold only for series of
nonnegative values (as CPU percentages are): its missing `mean > 0` guard is
what the counterexample exploits. -/
theorem stability_bounds_amended (values : List ℝ) (snapshots : List MSnapshot)
    (_hneValues : values ≠ []) (_hneSnapshots : snapshots ≠ []) :
    (0 ≤ ImpactAnalyzer.calculateStability values
      ∧ ImpactAnalyzer.calculateStability values ≤ 1)
    ∧ (∀ c : ℝ, (∀ x ∈ values, x = c) →
        ImpactAnalyzer.calculateStability values = 1)
    ∧ (∀ c : ℝ, (∀ t ∈ snapshots, t.cpuUsage = c) →
        AutoTuningEngine.calculateStability snapshots = 1)
    ∧ ((∀ t ∈ snapshots, 0 ≤ t.cpuUsage) →
        0 ≤ AutoTuningEngine.calculateStability snapshots
        ∧ AutoTuningEngine.calculateStability snapshots ≤ 1) := by
  refine ⟨analyzer_stability_mem_unit values, ?_, ?_, ?_⟩
  · intro c hc
    exact analyzer_stability_const values c hc
  · intro c hc
    exact engine_stability_const snapshots c hc
  · intro hnn
    constructor
    · unfold AutoTuningEngine.calculateStability
      split
      · norm_num
      · dsimp only
        split
        · split
          · norm_num
          · norm_num
        · exact le_max_left _ _
    · unfold AutoTuningEngine.calculateStability
      split
      · norm_num
      · dsimp only
        have hsum : 0 ≤ (snapshots.map (fun t => t.cpuUsage)).sum := by
          refine List.sum_nonneg ?_
          intro x hx
          rcases List.mem_map.mp hx with ⟨t, ht, rfl⟩
          exact hnn t ht
        have hlen : (0:ℝ) ≤ ((snapshots.map (fun t => t.cpuUsage)).length : ℝ) := by
          positivity
        split
        next hmean0 =>
          split
          · norm_num
          · norm_num
        next hmean0 =>
          refine stability_clamp_le_one ?_
          exact div_nonneg (Real.sqrt_nonneg _)
            (lt_of_le_of_ne (div_nonneg hsum hlen) (Ne.symm hmean0)).le

/-- A constant nonnegative two-snapshot series. -/
def constantCpuSnapshots : List MSnapshot :=
  [{ timestamp := 0, cpuUsage := 5, memPercentage := 0 },
   { timestamp := 1, cpuUsage := 5, memPercentage := 0 }]

/-- Witness for the amended C7: the analyzer's bounds at the negative-mean
series `[1, −3]` (the very series where the engine version escapes them),
constant-series scores of 1 in both versions, and the engine's bounds at a
nonnegative series. -/
theorem stability_bounds_amended_witness :
    (([(1:ℝ), -3] : List ℝ) ≠ [] ∧ constantCpuSnapshots ≠ [])
    ∧ (0 ≤ ImpactAnalyzer.calculateStability [(1:ℝ), -3]
        ∧ ImpactAnalyzer.calculateStability [(1:ℝ), -3] ≤ 1)
    ∧ ImpactAnalyzer.calculateStability [(5:ℝ), 5] = 1
    ∧ AutoTuningEngine.calculateStability constantCpuSnapshots = 1
    ∧ (0 ≤ AutoTuningEngine.calculateStability constantCpuSnapshots
        ∧ AutoTuningEngine.calculateStability constantCpuSnapshots ≤ 1) := by
  have hne1 : ([(1:ℝ), -3] : List ℝ) ≠ [] := by simp
  have hne2 : constantCpuSnapshots ≠ [] := by simp [constantCpuSnapshots]
  have hnn : ∀ t ∈ constantCpuSnapshots, 0 ≤ t.cpuUsage := by
    intro t ht
    rcases List.mem_cons.mp ht with rfl | ht
    · norm_num
    · rcases List.mem_cons.mp ht with rfl | ht
      · norm_num
      · simp at ht
  have hconst : ∀ t ∈ constantCpuSnapshots, t.cpuUsage = (5:ℝ) := by
    intro t ht
    rcases List.mem_cons.mp ht with rfl | ht
    · norm_num
    · rcases List.mem_cons.mp ht with rfl | ht
      · norm_num
      · simp at ht
  have hvals5 : ∀ x ∈ ([(5:ℝ), 5] : List ℝ), x = 5 := by
    intro x hx
    rcases List.mem_cons.mp hx with rfl | hx
    · rfl
    · rcases List.mem_cons.mp hx with rfl | hx
      · rfl
      · simp at hx
  have h1 := stability_bounds_amended [(1:ℝ), -3] constantCpuSnapshots hne1 hne2
  have h2 := stability_bounds_amended [(5:ℝ), 5] constantCpuSnapshots (by simp) hne2
  exact ⟨⟨hne1, hne2⟩, h1.1, h2.2.1 5 hvals5, h1.2.2.1 5 hconst, h1.2.2.2 hnn⟩

end ConfigFlow
